import Mathlib

/-!
Verification of the CPU discovery helper (`cpuid_helper.cpp`) of the
halfax_system_reporter repository.

The development shallowly embeds the program's data model and algorithms:

* machine registers are modelled as raw 32-bit patterns (`Nat` below `2^32`);
  where the C code interprets a register as a signed `int`, the embedding
  applies `sval` (two's-complement decode);
* the C `(int)` narrowing of a wider nonnegative value is modelled by
  `toInt32` (wrap modulo `2^32`, then two's-complement decode, matching the
  target compiler's behaviour);
* arithmetic the C code performs on `double` values (brand-string frequency
  parsing and the crystal-clock stage) is modelled with exact rational
  arithmetic expressed as scaled integer arithmetic; for the values these
  theorems touch the double computation is exact, so the models agree;
* the operating-system collaborators (`GetLogicalProcessorInformationEx`,
  `SetThreadAffinityMask`, WMI, and the CPUID instruction itself) are
  oracles supplied as explicit parameters.
-/

namespace CpuidHelper

/-- Result of one CPUID query: four raw 32-bit register patterns
(struct `CPUIDResult` in the source). -/
structure Regs where
  eax : Nat
  ebx : Nat
  ecx : Nat
  edx : Nat
deriving DecidableEq

/-- Two's-complement decode of a 32-bit pattern: the signed `int` value the
C code sees in a register. -/
def sval (n : Nat) : Int :=
  if n % 4294967296 < 2147483648 then ((n % 4294967296 : Nat) : Int)
  else ((n % 4294967296 : Nat) : Int) - 4294967296

/-- Narrowing a nonnegative wide value to a C `int`: wrap modulo `2^32` and
decode as two's complement (the behaviour of the target compiler). -/
def toInt32 (n : Nat) : Int := sval n

/-- Narrowing a signed wide value (a C `long long`) to a C `int`: wrap
modulo `2^32` and decode as two's complement. -/
def wrap32 (x : Int) : Int := toInt32 (x % 4294967296).toNat

/-- Arithmetic right shift on a C `int`: floor division by a power of two
(the target compiler shifts negative values arithmetically). -/
def asr (a : Int) (k : Nat) : Int := Int.fdiv a (2 ^ k)

/-- Cache level description (struct `CacheInfo` in the source).
`size_kb` and `cores_sharing` are C `int`s that the program can make
negative or use as sentinels, so they are `Int`; the geometry fields are
only ever the decoded nonnegative field values. -/
structure CacheInfo where
  size_kb : Int
  assoc : Nat
  line_size : Nat
  partitions : Nat
  sets : Int
  cores_sharing : Int
  is_inclusive : Int
deriving DecidableEq

/-- The zero-initialised cache record (`CacheInfo x = {0}` in `main`). -/
def cacheZero : CacheInfo := ⟨0, 0, 0, 0, 0, 0, 0⟩

/-- The four cache records `l1d, l1i, l2, l3` manipulated by the decoders. -/
structure Caches4 where
  l1d : CacheInfo
  l1i : CacheInfo
  l2 : CacheInfo
  l3 : CacheInfo
deriving DecidableEq

/-- All four records zero-initialised. -/
def caches4Zero : Caches4 := ⟨cacheZero, cacheZero, cacheZero, cacheZero⟩

/-- The loop `for (i = 0; i < 12 && ((apic_mask >> i) & 1); i++) bit_count++;`
of `detect_intel_caches`: count contiguous set bits from the LSB, looking at
most at 12 bit positions. `fuel` is the remaining positions, `i` the next
bit index. -/
def trailingOnesGo (mask : Nat) : Nat → Nat → Nat
  | 0, _ => 0
  | fuel + 1, i => if (mask >>> i) &&& 1 = 1 then trailingOnesGo mask fuel (i + 1) + 1 else 0

/-- Count of contiguous low set bits of the 12-bit sharing-width field. -/
def trailingOnes12 (mask : Nat) : Nat := trailingOnesGo mask 12 0

/-- Decode one subleaf of CPUID leaf 4 into the record `detect_intel_caches`
would store: each minus-one-encoded bit field is masked out and
incremented. The masked fields are at most 12 bits wide, so their
increments stay in `int` range, but `sets = ecx + 1` is computed on the
full signed 32-bit register (a raw `ecx` of `2^31 - 1` or more yields a
nonpositive `sets`, modelled by the two's-complement wrap the target
compiler gives the overflowing increment). The byte size
`(long long)ways * partitions * line_size * sets` always fits a signed
64-bit value and is computed exactly; the stored `size_kb` is the C `int`
narrowing of the truncating division `size_bytes / 1024`. -/
def decodeSubleaf (r : Regs) : CacheInfo :=
  let line_size := (r.ebx &&& 0xFFF) + 1
  let partitions := ((r.ebx >>> 12) &&& 0x3FF) + 1
  let ways := ((r.ebx >>> 22) &&& 0x3FF) + 1
  let sets : Int := toInt32 (r.ecx + 1)
  let size_bytes : Int := (ways : Int) * (partitions : Int) * (line_size : Int) * sets
  let apic_mask := (r.eax >>> 14) &&& 0xFFF
  let bit_count := trailingOnes12 apic_mask
  { size_kb := wrap32 (Int.tdiv size_bytes 1024)
    assoc := ways
    line_size := line_size
    partitions := partitions
    sets := sets
    cores_sharing := if 0 < bit_count then ((2 ^ bit_count : Nat) : Int) else 1
    is_inclusive := (((r.eax >>> 9) &&& 1 : Nat) : Int) }

/-- One iteration body of the subleaf loop of `detect_intel_caches`:
select the target level from the type and level fields and fill it only
while its `size_kb` is still the zero sentinel. -/
def stepCache (r : Regs) (st : Caches4) : Caches4 :=
  let cache_type := r.eax &&& 0x1F
  let level := (r.eax >>> 5) &&& 0x7
  let info := decodeSubleaf r
  if cache_type = 1 then
    (if level = 1 then (if st.l1d.size_kb = 0 then { st with l1d := info } else st) else st)
  else if cache_type = 2 then
    (if level = 1 then (if st.l1i.size_kb = 0 then { st with l1i := info } else st) else st)
  else if cache_type = 3 then
    (if level = 1 then (if st.l1d.size_kb = 0 then { st with l1d := info } else st)
     else if level = 2 then (if st.l2.size_kb = 0 then { st with l2 := info } else st)
     else if level = 3 then (if st.l3.size_kb = 0 then { st with l3 := info } else st)
     else st)
  else st

/-- The subleaf loop of `detect_intel_caches`: iterate subleaves, stopping at
the first subleaf whose 5-bit cache-type field is 0, or after `fuel`
iterations (the source bounds the loop at 32). `sub` is the CPUID oracle for
leaf 4 (subleaf index to registers). -/
def detectLoop (sub : Nat → Regs) : Nat → Nat → Caches4 → Caches4
  | 0, _, st => st
  | fuel + 1, i, st =>
    let r := sub i
    if r.eax &&& 0x1F = 0 then st
    else detectLoop sub fuel (i + 1) (stepCache r st)

/-- `detect_intel_caches`: iterate CPUID leaf 4 subleaves 0..31 over
zero-initialised records. -/
def detect_intel_caches (sub : Nat → Regs) : Caches4 :=
  detectLoop sub 32 0 caches4Zero

/-- The loop `while (val > 1) shift++, val >>= 1` of the `calc_shift` lambda
in `derive_cache_sharing_groups`. The fuel of 32 covers every C `int`
value. -/
def calcShiftGo : Nat → Nat → Nat
  | 0, _ => 0
  | fuel + 1, v => if v ≤ 1 then 0 else calcShiftGo fuel (v / 2) + 1

/-- The `calc_shift` lambda of `derive_cache_sharing_groups`: 0 when the
sharing count is at most 1 (this includes the sentinels 0 and -1), otherwise
the number of halvings needed to reach 1, i.e. floor of the base-2
logarithm. -/
def calc_shift (cores_sharing : Int) : Nat :=
  if cores_sharing ≤ 1 then 0 else calcShiftGo 32 cores_sharing.toNat

/-- Group id assigned to one hardware identifier for one cache level:
`apic >> shift` on the C `int` (arithmetic shift). -/
def groupId (c : CacheInfo) (apic : Int) : Int := asr apic (calc_shift c.cores_sharing)

/-- `derive_cache_sharing_groups`: `none` models the paths on which the
output arrays stay unallocated (`num_cores == 0`, or an allocation
failure); otherwise every enumerated processor's apic id is mapped to
`apic >> shift` for each of the three levels. The `-1` initialisation of
the source is overwritten for every index by the final assignment loop, so
it does not appear in the result. -/
def derive_cache_sharing_groups (apics : List Int) (l1d l2 l3 : CacheInfo)
    (mallocOk : Bool) : Option (List Int × List Int × List Int) :=
  if apics.isEmpty then none
  else if mallocOk = false then none
  else some (apics.map (groupId l1d), apics.map (groupId l2), apics.map (groupId l3))

/-- The unique-group counting loop of `main` for one cache level: a group id
is counted when it is in `[0, 256)` and its `seen` slot is still clear.
`seen` carries the ids already marked. -/
def countUniqueGo : List Int → List Int → Nat → Nat
  | [], _, cnt => cnt
  | g :: rest, seen, cnt =>
    if 0 ≤ g ∧ g < 256 ∧ g ∉ seen then countUniqueGo rest (g :: seen) (cnt + 1)
    else countUniqueGo rest seen cnt

/-- Number of unique in-range group ids, as `main` counts them. -/
def countUnique (gs : List Int) : Nat := countUniqueGo gs [] 0

/-- The `cache_sharing` summary of `main`: when the group arrays are absent
(NULL pointers) all three instance counts stay 0, otherwise each level's
unique in-range group ids are counted. -/
def cacheSharingCounts (groups : Option (List Int × List Int × List Int)) :
    Nat × Nat × Nat :=
  match groups with
  | none => (0, 0, 0)
  | some (g1, g2, g3) => (countUnique g1, countUnique g2, countUnique g3)

/-- ASCII upper-casing of one character, exactly as the copy loop of
`parse_frequency_from_brand` does it (`c - 32` for `a`..`z`, other bytes
unchanged). -/
def toUpperAscii (c : Char) : Char :=
  if 'a' ≤ c ∧ c ≤ 'z' then Char.ofNat (c.toNat - 32) else c

/-- The uppercase working copy of the brand string: truncated to 127
characters (the `upper[128]` buffer) and upper-cased. -/
def upperOf (brand : List Char) : List Char := (brand.take 127).map toUpperAscii

/-- Whether the pattern occurs at the head of the list. -/
def matchesAt : List Char → List Char → Bool
  | _, [] => true
  | [], _ :: _ => false
  | x :: xs, p :: ps => x == p && matchesAt xs ps

/-- Index of the first occurrence of the pattern (the `strstr` calls of
`parse_frequency_from_brand`); `i` is the index of the current head. -/
def findSubGo (pat : List Char) : List Char → Nat → Option Nat
  | [], i => if pat.isEmpty then some i else none
  | x :: xs, i => if matchesAt (x :: xs) pat then some i else findSubGo pat xs (i + 1)

/-- First-occurrence search in a character list. -/
def findSub (xs pat : List Char) : Option Nat := findSubGo pat xs 0

/-- Character class of the backward scan: digit, decimal point or space. -/
def isNumChar (c : Char) : Bool :=
  (48 ≤ c.toNat && c.toNat ≤ 57) || c == '.' || c == ' '

/-- Digits only. -/
def isDigitCh (c : Char) : Bool := 48 ≤ c.toNat && c.toNat ≤ 57

/-- Digit or decimal point (the characters the collection loop stores). -/
def isDigitOrDot (c : Char) : Bool := isDigitCh c || c == '.'

/-- The backward scan of `parse_frequency_from_brand`: starting just before
the unit token, walk left over digits, dots and spaces, and return the index
of the first character of the scanned span (the `p++` after the loop). -/
def walkBack (u : List Char) : Nat → Nat
  | 0 => 0
  | s + 1 => if isNumChar (u.getD s ' ') then walkBack u s else s + 1

/-- The forward collection loop: from position `p` up to the token position
`t`, keep digits and dots, stopping when 31 characters are stored (the
`number[32]` buffer). `fuel` bounds the traversal. -/
def collectGo (u : List Char) (t : Nat) : Nat → Nat → Nat → List Char
  | 0, _, _ => []
  | fuel + 1, p, nlen =>
    if p < t ∧ nlen < 31 then
      let c := u.getD p ' '
      if isDigitOrDot c then c :: collectGo u t fuel (p + 1) (nlen + 1)
      else collectGo u t fuel (p + 1) nlen
    else []

/-- Decimal accumulation of a digit list. -/
def natOfDigits : List Char → Nat → Nat
  | [], acc => acc
  | c :: cs, acc => natOfDigits cs (acc * 10 + (c.toNat - 48))

/-- The value `atof` computes on a string of digits and dots, as an exact
scaled integer: the pair `(n, d)` represents `n / d`, with `d` the power of
ten given by the fractional digits. `atof` reads an integer part, then an
optional point and fractional digits, and stops at anything else (in
particular at a second point). -/
def atofScaled (s : List Char) : Nat × Nat :=
  let ip := s.takeWhile isDigitCh
  let rest := s.drop ip.length
  match rest with
  | '.' :: rest2 =>
    let fr := rest2.takeWhile isDigitCh
    (natOfDigits ip 0 * 10 ^ fr.length + natOfDigits fr 0, 10 ^ fr.length)
  | _ => (natOfDigits ip 0, 1)

/-- `parse_frequency_from_brand`: upper-case the brand, locate a `GHZ` else
`MHZ` token, scan the number before it, and produce the MHz value, scaling
GHz by 1000 and rounding to nearest (`(int)(val + 0.5)` on the nonnegative
value equals the floor of `val + 1/2`, computed here exactly on the scaled
integers). `none` models the `return 0` failure paths. -/
def parse_frequency_from_brand (brand : List Char) : Option Nat :=
  let upper := upperOf brand
  let ghz := findSub upper ['G', 'H', 'Z']
  let mhz := findSub upper ['M', 'H', 'Z']
  let target := match ghz with
    | some g => some g
    | none => mhz
  match target with
  | none => none
  | some t =>
    let s := walkBack upper t
    let number := collectGo upper t t s 0
    if number.isEmpty then none
    else
      let nd := atofScaled number
      if nd.1 = 0 then none
      else
        some (if ghz.isSome then (2000 * nd.1 + nd.2) / (2 * nd.2)
              else (2 * nd.1 + nd.2) / (2 * nd.2))

/-- The running frequency result of `main`: `base_mhz`, `max_mhz`, `bus_mhz`
and the `success` flag. -/
structure FreqState where
  base_mhz : Nat
  max_mhz : Nat
  bus_mhz : Nat
  success : Bool
deriving DecidableEq

/-- Everything the frequency fallback chain of `main` reads: the maximum
basic leaf (raw register pattern), the registers of leaves 0x16 and 0x15,
the brand string, and the value the WMI collaborator would return. -/
structure FreqIn where
  maxLeafRaw : Nat
  leaf16 : Regs
  leaf15 : Regs
  brand : List Char
  wmi : Nat
deriving DecidableEq

/-- Stage 1 of the chain (leaf 0x16): when the leaf is supported, the low 16
bits of EAX/EBX/ECX become base, max and bus MHz, and `success` is set when
base and max are both nonzero. -/
def stage16 (inp : FreqIn) : FreqState :=
  if 0x16 ≤ sval inp.maxLeafRaw then
    let base := inp.leaf16.eax &&& 0xFFFF
    let maxv := inp.leaf16.ebx &&& 0xFFFF
    let bus := inp.leaf16.ecx &&& 0xFFFF
    { base_mhz := base, max_mhz := maxv, bus_mhz := bus,
      success := base != 0 && maxv != 0 }
  else { base_mhz := 0, max_mhz := 0, bus_mhz := 0, success := false }

/-- Stage 2 of the chain (leaf 0x15): when the leaf is supported and all of
EAX, EBX, ECX are positive as signed ints, the crystal clock `ECX Hz`
yields `crystal_mhz = ecx / 10^6` and `derived_base = crystal_mhz * ebx /
eax`. A still-zero bus clock is filled with `crystal_mhz` rounded to
nearest; when base is still zero it is filled with `derived_base` rounded
to nearest (with `ebx, ecx > 0` the source's `derived_base > 0.0` test is
always true), max is filled with the same value if still zero, and
`success` is set. The double arithmetic of the source is modelled by exact
rational arithmetic on scaled integers: `round(c / 10^6) = (2c + 10^6) /
(2 * 10^6)` and `round(c * b / (10^6 * a)) = (2cb + 10^6 a) / (2 * 10^6 *
a)` with floor division. -/
def stage15 (inp : FreqIn) (s : FreqState) : FreqState :=
  if 0x15 ≤ sval inp.maxLeafRaw then
    let a := inp.leaf15.eax
    let b := inp.leaf15.ebx
    let c := inp.leaf15.ecx
    if 0 < sval a ∧ 0 < sval b ∧ 0 < sval c then
      let bus2 := if s.bus_mhz = 0 then (2 * c + 1000000) / 2000000 else s.bus_mhz
      if s.base_mhz = 0 then
        let derived := (2 * c * b + 1000000 * a) / (2000000 * a)
        { base_mhz := derived,
          max_mhz := if s.max_mhz = 0 then derived else s.max_mhz,
          bus_mhz := bus2, success := true }
      else { s with bus_mhz := bus2 }
    else s
  else s

/-- Stage 3 of the chain: brand-string parsing, attempted when no stage has
succeeded or base or max is still zero; a parsed positive value fills the
still-zero fields and marks success. -/
def stageBrand (inp : FreqIn) (s : FreqState) : FreqState :=
  if s.success = false ∨ s.base_mhz = 0 ∨ s.max_mhz = 0 then
    match parse_frequency_from_brand inp.brand with
    | some p =>
      if 0 < p then
        { base_mhz := if s.base_mhz = 0 then p else s.base_mhz,
          max_mhz := if s.max_mhz = 0 then p else s.max_mhz,
          bus_mhz := s.bus_mhz, success := true }
      else s
    | none => s
  else s

/-- Stage 4 of the chain: the WMI `MaxClockSpeed` query, attempted only when
max is still zero; a positive value fills max (and a still-zero base) and
marks success. -/
def stageWmi (inp : FreqIn) (s : FreqState) : FreqState :=
  if s.max_mhz = 0 then
    if 0 < inp.wmi then
      { base_mhz := if s.base_mhz = 0 then inp.wmi else s.base_mhz,
        max_mhz := inp.wmi, bus_mhz := s.bus_mhz, success := true }
    else s
  else s

/-- The final `if (!success && max_leaf >= 0x80000002) success = 0;` of
`main`: the comparison against the unsigned literal promotes `max_leaf` to
unsigned, and the branch only rewrites an already-false flag. -/
def stageFinal (inp : FreqIn) (s : FreqState) : FreqState :=
  if s.success = false ∧ 0x80000002 ≤ inp.maxLeafRaw % 4294967296 then
    { s with success := false }
  else s

/-- The complete ordered frequency fallback chain of `main`. -/
def freqChain (inp : FreqIn) : FreqState :=
  stageFinal inp (stageWmi inp (stageBrand inp (stage15 inp (stage16 inp))))

/-- Per-core topology record (struct `PerCoreTopology` in the source); all
fields are C `int`s. -/
structure PerCoreTopology where
  apic_id : Int
  core_type : Int
  core_index : Int
  logical_index : Int
  package_id : Int
  tile_id : Int
  die_id : Int
  module_id : Int
deriving DecidableEq

/-- Environment of `detect_apic_topology`: the CPUID oracle (first argument
is the logical-processor index the thread is pinned to when the query runs),
the maximum basic leaf, and the OS collaborators — the size returned by the
first `GetLogicalProcessorInformationEx` call, whether `malloc` and the
second query succeed, the logical-processor count parsed from the buffer,
and which affinity masks `SetThreadAffinityMask` accepts. -/
structure TopoEnv where
  maxLeafRaw : Nat
  cpuid : Nat → Nat → Nat → Regs
  bufferSize : Nat
  mallocOk : Bool
  glpiOk : Bool
  totalLPs : Nat
  canSet : Nat → Bool

/-- `SetThreadAffinityMask`: on success the previous mask is returned and
the affinity becomes `mask`; on failure 0 is returned and the affinity is
unchanged. The pair is (return value, new affinity). -/
def setAff (canSet : Nat → Bool) (aff mask : Nat) : Nat × Nat :=
  if canSet mask then (aff, mask) else (0, aff)

/-- The subleaf scan of `detect_apic_topology` (subleaves 0..7 of the
topology leaf): a level-type field of 0 terminates; types 1, 2 and 5 record
the SMT, core and tile shift widths. The accumulator is
`(smt_bits, core_bits, tile_bits)`. -/
def subleafScan (env : TopoEnv) (topoLeaf lp : Nat) :
    Nat → Nat → Nat × Nat × Nat → Nat × Nat × Nat
  | 0, _, acc => acc
  | fuel + 1, s, acc =>
    let r := env.cpuid lp topoLeaf s
    let level_type := (r.ecx >>> 8) &&& 0xFF
    let shift_bits := r.eax &&& 0x1F
    if level_type = 0 then acc
    else subleafScan env topoLeaf lp fuel (s + 1)
      (if level_type = 1 then (shift_bits, acc.2.1, acc.2.2)
       else if level_type = 2 then (acc.1, shift_bits, acc.2.2)
       else if level_type = 5 then (acc.1, acc.2.1, shift_bits)
       else acc)

/-- The record built for one pinned logical processor: the x2APIC id is the
signed EDX of subleaf 0; `core_mask = ((1 << core_bits) - 1) & ~smt_mask` is
computed on the bit pattern; the ids are arithmetic shifts of the signed
apic id; the core type is the raw high byte of leaf 0x1A EAX when that leaf
is supported, otherwise 0. -/
def buildRecord (env : TopoEnv) (topoLeaf lp : Nat) : PerCoreTopology :=
  let r := env.cpuid lp topoLeaf 0
  let apic := sval r.edx
  let bits := subleafScan env topoLeaf lp 8 0 (0, 0, 0)
  let smt_bits := bits.1
  let core_bits := bits.2.1
  let tile_bits := bits.2.2
  let core_mask := ((2 ^ core_bits - 1) / 2 ^ smt_bits) * 2 ^ smt_bits
  { apic_id := apic
    core_type :=
      if 0x1A ≤ sval env.maxLeafRaw then
        ((((env.cpuid lp 0x1A 0).eax >>> 24) &&& 0xFF : Nat) : Int)
      else 0
    core_index := (((r.edx %  4294967296) &&& core_mask) >>> smt_bits : Nat)
    logical_index := (lp : Int)
    package_id := asr apic core_bits
    tile_id := if 0 < tile_bits then asr apic tile_bits else 0
    die_id := 0
    module_id := 0 }

/-- The per-processor enumeration loop of `detect_apic_topology`: for each
logical processor index, while the record capacity of 256 is not reached,
try to pin the thread to that processor alone; on failure skip the
processor, on success read the topology leaves and append a record. The
state is (current affinity, records so far). -/
def topoLoop (env : TopoEnv) (topoLeaf : Nat) :
    Nat → Nat → Nat → List PerCoreTopology → Nat × List PerCoreTopology
  | 0, _, aff, acc => (aff, acc)
  | fuel + 1, lp, aff, acc =>
    if lp < env.totalLPs ∧ acc.length < 256 then
      if env.canSet (2 ^ lp) then
        topoLoop env topoLeaf fuel (lp + 1) (2 ^ lp) (acc ++ [buildRecord env topoLeaf lp])
      else topoLoop env topoLeaf fuel (lp + 1) aff acc
    else (aff, acc)

/-- `detect_apic_topology`, with the calling thread's affinity made
explicit: the result is (final affinity, enumerated records). The early
returns (topology leaf unsupported, zero-sized buffer, allocation failure,
failed core-relationship query) leave the affinity untouched; otherwise the
thread is pinned to mask 1 to save the original affinity, the enumeration
loop runs, and the original mask is re-applied only when the saving call
returned it (nonzero). -/
def detect_apic_topology (env : TopoEnv) (initAff : Nat) :
    Nat × List PerCoreTopology :=
  if sval env.maxLeafRaw < 0xB then (initAff, [])
  else if env.bufferSize = 0 then (initAff, [])
  else if env.mallocOk = false then (initAff, [])
  else if env.glpiOk = false then (initAff, [])
  else
    let topoLeaf := if 0x1F ≤ sval env.maxLeafRaw then 0x1F else 0xB
    let save := setAff env.canSet initAff 1
    let run := topoLoop env topoLeaf env.totalLPs 0 save.2 []
    let finalAff := if save.1 ≠ 0 then (setAff env.canSet run.1 save.1).2 else run.1
    (finalAff, run.2)

/-! Theorems. -/

/-- A value in the signed 32-bit range survives the C `int` narrowing
unchanged. -/
theorem wrap32_small (x : Int) (h1 : -2147483648 ≤ x) (h2 : x < 2147483648) :
    wrap32 x = x := by
  unfold wrap32 toInt32 sval
  split
  · omega
  · omega

/-- C5: brand-string frequency parsing yields 3600 MHz for the 3.60GHz
Intel brand string, 2400 MHz for the 2400MHz string, and fails (produces
no value) for every brand string whose upper-cased copy contains neither a
GHZ nor an MHZ token. -/
theorem c5_brand_parsing :
    parse_frequency_from_brand ("Intel(R) Core(TM) i7 @ 3.60GHz".toList) = some 3600 ∧
    parse_frequency_from_brand ("Some CPU 2400MHz".toList) = some 2400 ∧
    ∀ brand : List Char,
      findSub (upperOf brand) ['G', 'H', 'Z'] = none →
      findSub (upperOf brand) ['M', 'H', 'Z'] = none →
      parse_frequency_from_brand brand = none := by
  refine ⟨by decide, by decide, ?_⟩
  intro brand hg hm
  simp only [parse_frequency_from_brand, hg, hm]

/-- Witness for C5: the parser at a concrete token-free brand string. -/
theorem c5_brand_parsing_witness :
    parse_frequency_from_brand ("AMD EPYC 7443 24-Core Processor".toList) = none :=
  c5_brand_parsing.2.2 ("AMD EPYC 7443 24-Core Processor".toList) (by decide) (by decide)

/-- C6: a sharing-width field with three contiguous low set bits decodes to
`cores_sharing = 8`; `calc_shift 8 = 3`; and for a cache level with
`cores_sharing = 8` any two hardware identifiers that agree above their low
3 bits receive the same group id. -/
theorem c6_sharing_shift :
    calc_shift 8 = 3 ∧
    (decodeSubleaf ⟨0x21 + 7 * 16384, 0, 0, 0⟩).cores_sharing = 8 ∧
    ∀ (c : CacheInfo) (h ra rb : Int), c.cores_sharing = 8 →
      0 ≤ ra → ra < 8 → 0 ≤ rb → rb < 8 →
      groupId c (8 * h + ra) = groupId c (8 * h + rb) := by
  refine ⟨by decide, by decide, ?_⟩
  intro c h ra rb hc hra hra8 hrb hrb8
  have hcs : calc_shift c.cores_sharing = 3 := by rw [hc]; decide
  simp only [groupId, hcs, asr]
  rw [show ((2 : Int) ^ (3 : Nat)) = 8 by norm_num]
  rw [Int.fdiv_eq_ediv _ (by norm_num), Int.fdiv_eq_ediv _ (by norm_num)]
  rw [show (8 : Int) * h + ra = ra + 8 * h by ring,
      show (8 : Int) * h + rb = rb + 8 * h by ring]
  rw [Int.add_mul_ediv_left ra h (by norm_num : (8 : Int) ≠ 0),
      Int.add_mul_ediv_left rb h (by norm_num : (8 : Int) ≠ 0)]
  rw [Int.ediv_eq_zero_of_lt hra hra8, Int.ediv_eq_zero_of_lt hrb hrb8]

/-- Witness for C6: two identifiers differing only in the low 3 bits get
the same group id for a level sharing 8 logical processors. -/
theorem c6_sharing_shift_witness :
    groupId ⟨0, 0, 0, 0, 0, 8, 0⟩ (8 * 1 + 2) = groupId ⟨0, 0, 0, 0, 0, 8, 0⟩ (8 * 1 + 5) :=
  c6_sharing_shift.2.2 ⟨0, 0, 0, 0, 0, 8, 0⟩ 1 2 5 rfl (by decide) (by decide) (by decide)
    (by decide)

/-- C10: the unique-group counting of `main` ignores any group id outside
`[0, 256)`: inserting such an id anywhere in the list leaves the count
unchanged. -/
theorem c10_count_range (xs ys : List Int) (g : Int) (hg : g < 0 ∨ 256 ≤ g) :
    countUnique (xs ++ g :: ys) = countUnique (xs ++ ys) := by
  have hstep : ∀ (seen : List Int), ¬ (0 ≤ g ∧ g < 256 ∧ g ∉ seen) := by
    intro seen hcon
    rcases hg with h | h
    · omega
    · omega
  suffices hgen : ∀ (l : List Int) (seen : List Int) (cnt : Nat),
      countUniqueGo (l ++ g :: ys) seen cnt = countUniqueGo (l ++ ys) seen cnt by
    exact hgen xs [] 0
  intro l
  induction l with
  | nil =>
    intro seen cnt
    simp only [List.nil_append, countUniqueGo, if_neg (hstep seen)]
  | cons x rest ih =>
    intro seen cnt
    simp only [List.cons_append, countUniqueGo]
    split
    · exact ih _ _
    · exact ih _ _

/-- Witness for C10: a negative id contributes nothing to the count. -/
theorem c10_count_range_witness : countUnique [0, -1, 5] = countUnique [0, 5] :=
  c10_count_range [0] [5] (-1) (Or.inl (by decide))

/-- Unknown-vendor scenario used to refute C2: every cache level zero
filled, one enumerated processor with apic id 0. -/
def unknownVendorGroups : Option (List Int × List Int × List Int) :=
  derive_cache_sharing_groups [0] cacheZero cacheZero cacheZero true

/-- Counterexample to C2 as stated: with an unknown vendor (all cache
levels zero-filled, `cores_sharing = 0`) and one enumerated processor with
apic id 0, the grouper assigns group id 0 — not the `-1` "no group"
sentinel — and the emitted instance counts are (1, 1, 1), not (0, 0, 0). -/
theorem c2_counterexample :
    unknownVendorGroups = some ([0], [0], [0]) ∧
    cacheSharingCounts unknownVendorGroups = (1, 1, 1) ∧
    (0 : Int) ≠ -1 ∧ (1 : Nat) ≠ 0 := by decide

/-- C2 amended: for cache levels whose `cores_sharing` is not a known
positive value (the sentinel 0 of the unknown vendor, the sentinel -1 of
vendor B, or any value at most 1), the grouper uses shift 0, so every
enumerated processor receives its own hardware identifier as group id (the
`-1` initialisation is always overwritten); the instance counts are then
the number of distinct apic ids in `[0, 256)`, not 0. -/
theorem c2_amended (apics : List Int) (l1d l2 l3 : CacheInfo)
    (h1 : l1d.cores_sharing ≤ 1) (h2 : l2.cores_sharing ≤ 1)
    (h3 : l3.cores_sharing ≤ 1) (hne : apics ≠ []) :
    derive_cache_sharing_groups apics l1d l2 l3 true = some (apics, apics, apics) := by
  have gid : ∀ (c : CacheInfo), c.cores_sharing ≤ 1 → ∀ a : Int, groupId c a = a := by
    intro c hc a
    simp [groupId, calc_shift, hc, asr]
  have hki : apics.isEmpty = false := by
    cases apics with
    | nil => exact absurd rfl hne
    | cons x xs => rfl
  have mapid : ∀ (f : Int → Int), (∀ a, f a = a) → ∀ (l : List Int), l.map f = l := by
    intro f hf l
    induction l with
    | nil => rfl
    | cons x xs ih => simp [hf, ih]
  simp only [derive_cache_sharing_groups, hki]
  simp [mapid _ (gid _ h1), mapid _ (gid _ h2), mapid _ (gid _ h3)]

/-- Witness for C2 amended: a single processor with apic id 5 and unknown
sharing everywhere is its own group at every level. -/
theorem c2_amended_witness :
    derive_cache_sharing_groups [5] cacheZero cacheZero cacheZero true =
      some ([5], [5], [5]) :=
  c2_amended [5] cacheZero cacheZero cacheZero (by decide) (by decide) (by decide)
    (by decide)

/-- CPUID oracle for the C4 counterexample: one data-cache subleaf of level
1 with every geometry field at its in-range maximum except `sets - 1 =
1024`. -/
def subC4 : Nat → Regs :=
  fun i => if i = 0 then ⟨0x21, 0xFFFFFFFF, 1024, 0⟩ else ⟨0, 0, 0, 0⟩

/-- Counterexample to C4 as stated: for in-range fields `ways = partitions
= 1024`, `line_size = 4096`, `sets = 1025`, the exact quotient is
`2^32 + 2^22 = 4299161600` KB, but the stored C `int` wraps to `4194304`. -/
theorem c4_counterexample :
    (detect_intel_caches subC4).l1d.assoc = 1024 ∧
    (detect_intel_caches subC4).l1d.partitions = 1024 ∧
    (detect_intel_caches subC4).l1d.line_size = 4096 ∧
    (detect_intel_caches subC4).l1d.sets = 1025 ∧
    Int.tdiv (1024 * 1024 * 4096 * 1025) 1024 = 4299161600 ∧
    (detect_intel_caches subC4).l1d.size_kb = 4194304 ∧
    (4194304 : Int) ≠ 4299161600 := by decide

/-- C4 amended: for every populated level the stored `size_kb` equals
`associativity * partitions * line_size * sets / 1024` — the product and
truncating division computed on the stored fields as the C code computes
them, with `sets` read as a signed 32-bit int — whenever that quotient
fits a 32-bit signed int; outside that range the stored value is the
wrapped narrowing, as the counterexample shows. -/
theorem c4_amended (r : Regs)
    (hlo : -2147483648 ≤ Int.tdiv (((decodeSubleaf r).assoc : Int) *
        ((decodeSubleaf r).partitions : Int) * ((decodeSubleaf r).line_size : Int) *
        (decodeSubleaf r).sets) 1024)
    (hhi : Int.tdiv (((decodeSubleaf r).assoc : Int) *
        ((decodeSubleaf r).partitions : Int) * ((decodeSubleaf r).line_size : Int) *
        (decodeSubleaf r).sets) 1024 < 2147483648) :
    (decodeSubleaf r).size_kb =
      Int.tdiv (((decodeSubleaf r).assoc : Int) * ((decodeSubleaf r).partitions : Int) *
        ((decodeSubleaf r).line_size : Int) * (decodeSubleaf r).sets) 1024 := by
  simp only [decodeSubleaf] at hlo hhi ⊢
  exact wrap32_small _ hlo hhi

/-- Witness for C4 amended, at the raw register `ecx = 2^31` whose signed
increment makes `sets` negative: the stored `size_kb` is the (negative)
truncated quotient, matching the program. -/
theorem c4_amended_witness :
    (decodeSubleaf ⟨0x21, 0, 2147483648, 0⟩).size_kb =
      Int.tdiv (((decodeSubleaf ⟨0x21, 0, 2147483648, 0⟩).assoc : Int) *
        ((decodeSubleaf ⟨0x21, 0, 2147483648, 0⟩).partitions : Int) *
        ((decodeSubleaf ⟨0x21, 0, 2147483648, 0⟩).line_size : Int) *
        (decodeSubleaf ⟨0x21, 0, 2147483648, 0⟩).sets) 1024 :=
  c4_amended ⟨0x21, 0, 2147483648, 0⟩ (by decide) (by decide)

/-- The final guard of `main` never changes the frequency state: it only
rewrites an already-false success flag. -/
theorem stageFinal_id (inp : FreqIn) (s : FreqState) : stageFinal inp s = s := by
  unfold stageFinal
  split
  · rename_i h
    rcases s with ⟨b, m, u, sc⟩
    simp_all
  · rfl

/-- If the WMI stage does not end in success, it changed nothing. -/
theorem stageWmi_not_success (inp : FreqIn) (s : FreqState)
    (h : (stageWmi inp s).success = false) : stageWmi inp s = s := by
  by_cases h1 : s.max_mhz = 0
  · by_cases h2 : 0 < inp.wmi
    · exfalso
      unfold stageWmi at h
      rw [if_pos h1, if_pos h2] at h
      simp at h
    · unfold stageWmi
      rw [if_pos h1, if_neg h2]
  · unfold stageWmi
    rw [if_neg h1]

/-- If the brand-string stage does not end in success, it changed nothing. -/
theorem stageBrand_not_success (inp : FreqIn) (s : FreqState)
    (h : (stageBrand inp s).success = false) : stageBrand inp s = s := by
  by_cases h1 : s.success = false ∨ s.base_mhz = 0 ∨ s.max_mhz = 0
  · unfold stageBrand at h ⊢
    rw [if_pos h1] at h ⊢
    cases hp : parse_frequency_from_brand inp.brand with
    | none => simp only [hp]
    | some p =>
      simp only [hp] at h ⊢
      by_cases h2 : 0 < p
      · exfalso
        rw [if_pos h2] at h
        simp at h
      · rw [if_neg h2]
  · unfold stageBrand
    rw [if_neg h1]

/-- If the crystal-clock stage does not end in success, it left base and max
unchanged (it may still have filled a zero bus clock), and the flag was
already false. -/
theorem stage15_not_success (inp : FreqIn) (s : FreqState)
    (h : (stage15 inp s).success = false) :
    (stage15 inp s).base_mhz = s.base_mhz ∧ (stage15 inp s).max_mhz = s.max_mhz ∧
    s.success = false := by
  unfold stage15 at h ⊢
  by_cases h1 : 0x15 ≤ sval inp.maxLeafRaw
  · rw [if_pos h1] at h ⊢
    by_cases h2 : 0 < sval inp.leaf15.eax ∧ 0 < sval inp.leaf15.ebx ∧ 0 < sval inp.leaf15.ecx
    · rw [if_pos h2] at h ⊢
      by_cases h3 : s.base_mhz = 0
      · exfalso
        rw [if_pos h3] at h
        simp at h
      · rw [if_neg h3] at h ⊢
        exact ⟨rfl, rfl, h⟩
    · rw [if_neg h2] at h ⊢
      exact ⟨rfl, rfl, h⟩
  · rw [if_neg h1] at h ⊢
    exact ⟨rfl, rfl, h⟩

/-- If the leaf-0x16 stage does not set success, base or max is zero. -/
theorem stage16_not_success (inp : FreqIn) (h : (stage16 inp).success = false) :
    (stage16 inp).base_mhz = 0 ∨ (stage16 inp).max_mhz = 0 := by
  unfold stage16 at h ⊢
  by_cases h1 : 0x16 ≤ sval inp.maxLeafRaw
  · rw [if_pos h1] at h ⊢
    simp only [Bool.and_eq_false_iff, bne_eq_false_iff_eq] at h
    simpa using h
  · rw [if_neg h1]
    exact Or.inl rfl

/-- Concrete run refuting C1: leaf 0x16 reports base 5, max 0, bus 7; leaf
0x15 is all zero; the brand string is empty; WMI returns 0. -/
def inpC1 : FreqIn := ⟨0x16, ⟨5, 0, 7, 0⟩, ⟨0, 0, 0, 0⟩, [], 0⟩

/-- Counterexample to C1 as stated: a run can end with `success = 0` while
`base_mhz = 5` and `bus_mhz = 7` are nonzero — the leaf-0x16 values are
kept even though no stage succeeded. -/
theorem c1_counterexample :
    (freqChain inpC1).success = false ∧ (freqChain inpC1).base_mhz = 5 ∧
    (freqChain inpC1).bus_mhz = 7 ∧ (5 : Nat) ≠ 0 ∧ (7 : Nat) ≠ 0 := by decide

/-- C1 amended: `success = 0` holds exactly when no stage of the fallback
chain produced a usable complete result, and then base and max were never
both nonzero — `success = 0` implies `base_mhz = 0` or `max_mhz = 0`, but
individual `*_mhz` fields may retain nonzero partial values, as the
counterexample shows. -/
theorem c1_amended (inp : FreqIn) (h : (freqChain inp).success = false) :
    (freqChain inp).base_mhz = 0 ∨ (freqChain inp).max_mhz = 0 := by
  unfold freqChain at h ⊢
  rw [stageFinal_id] at h ⊢
  have e4 := stageWmi_not_success inp _ h
  rw [e4] at h ⊢
  have e3 := stageBrand_not_success inp _ h
  rw [e3] at h ⊢
  have h15 := stage15_not_success inp _ h
  rw [h15.1, h15.2.1]
  exact stage16_not_success inp h15.2.2

/-- Witness for C1 amended: at the counterexample run the flag is false and
indeed max is zero. -/
theorem c1_amended_witness :
    (freqChain inpC1).base_mhz = 0 ∨ (freqChain inpC1).max_mhz = 0 :=
  c1_amended inpC1 (by decide)

/-- Concrete run refuting C7: leaf 0x16 reports base 3000, max 4000, bus 0;
leaf 0x15 reports a 25 MHz crystal. -/
def inpC7 : FreqIn := ⟨0x16, ⟨3000, 4000, 0, 0⟩, ⟨1, 1, 25000000, 0⟩, [], 0⟩

/-- Counterexample to C7 as stated: after the first stage both base and max
are nonzero, yet the crystal-clock stage still runs and modifies `bus_mhz`
from 0 to 25. -/
theorem c7_counterexample :
    (stage16 inpC7).base_mhz = 3000 ∧ (stage16 inpC7).max_mhz = 4000 ∧
    (stage16 inpC7).bus_mhz = 0 ∧ (freqChain inpC7).bus_mhz = 25 ∧
    (25 : Nat) ≠ 0 := by decide

/-- The crystal-clock stage leaves a nonzero base (and then also max)
unchanged, fills the bus clock only when it is zero, and never changes the
success flag in that situation. -/
theorem stage15_keeps (inp : FreqIn) (s : FreqState) (hb : s.base_mhz ≠ 0) :
    (stage15 inp s).base_mhz = s.base_mhz ∧ (stage15 inp s).max_mhz = s.max_mhz ∧
    (s.bus_mhz ≠ 0 → (stage15 inp s).bus_mhz = s.bus_mhz) := by
  unfold stage15
  by_cases h1 : 0x15 ≤ sval inp.maxLeafRaw
  · rw [if_pos h1]
    by_cases h2 : 0 < sval inp.leaf15.eax ∧ 0 < sval inp.leaf15.ebx ∧
        0 < sval inp.leaf15.ecx
    · rw [if_pos h2, if_neg hb]
      refine ⟨rfl, rfl, ?_⟩
      intro hbus
      simp only [if_neg hbus]
    · rw [if_neg h2]
      exact ⟨rfl, rfl, fun _ => rfl⟩
  · rw [if_neg h1]
    exact ⟨rfl, rfl, fun _ => rfl⟩

/-- The brand-string stage leaves all three frequency fields unchanged once
base and max are both nonzero (even when it still runs because no earlier
stage set the success flag). -/
theorem stageBrand_keeps (inp : FreqIn) (s : FreqState) (hb : s.base_mhz ≠ 0)
    (hm : s.max_mhz ≠ 0) :
    (stageBrand inp s).base_mhz = s.base_mhz ∧ (stageBrand inp s).max_mhz = s.max_mhz ∧
    (stageBrand inp s).bus_mhz = s.bus_mhz := by
  unfold stageBrand
  by_cases h1 : s.success = false ∨ s.base_mhz = 0 ∨ s.max_mhz = 0
  · rw [if_pos h1]
    cases hp : parse_frequency_from_brand inp.brand with
    | none => exact ⟨rfl, rfl, rfl⟩
    | some p =>
      dsimp only
      by_cases h2 : 0 < p
      · rw [if_pos h2]
        exact ⟨by simp only [if_neg hb], by simp only [if_neg hm], rfl⟩
      · rw [if_neg h2]
        exact ⟨rfl, rfl, rfl⟩
  · rw [if_neg h1]
    exact ⟨rfl, rfl, rfl⟩

/-- The WMI stage is a no-op whenever max is already nonzero. -/
theorem stageWmi_keeps (inp : FreqIn) (s : FreqState) (hm : s.max_mhz ≠ 0) :
    stageWmi inp s = s := by
  unfold stageWmi
  rw [if_neg hm]

/-- C7 amended: whatever earlier stages produced the running state, once
`base_mhz` and `max_mhz` are both nonzero, each later stage leaves
`base_mhz` and `max_mhz` unchanged; the crystal-clock stage may still fill
a still-zero `bus_mhz` but keeps a nonzero one, the brand-string and WMI
stages and the final guard keep all three fields; hence the rest of the
chain from any such state preserves base and max, and also bus once it is
nonzero. -/
theorem c7_amended (inp : FreqIn) (s : FreqState)
    (hb : s.base_mhz ≠ 0) (hm : s.max_mhz ≠ 0) :
    ((stage15 inp s).base_mhz = s.base_mhz ∧ (stage15 inp s).max_mhz = s.max_mhz ∧
      (s.bus_mhz ≠ 0 → (stage15 inp s).bus_mhz = s.bus_mhz)) ∧
    ((stageBrand inp s).base_mhz = s.base_mhz ∧ (stageBrand inp s).max_mhz = s.max_mhz ∧
      (stageBrand inp s).bus_mhz = s.bus_mhz) ∧
    stageWmi inp s = s ∧
    stageFinal inp s = s ∧
    ((stageFinal inp (stageWmi inp (stageBrand inp (stage15 inp s)))).base_mhz = s.base_mhz ∧
     (stageFinal inp (stageWmi inp (stageBrand inp (stage15 inp s)))).max_mhz = s.max_mhz ∧
     (s.bus_mhz ≠ 0 →
       (stageFinal inp (stageWmi inp (stageBrand inp (stage15 inp s)))).bus_mhz = s.bus_mhz)) := by
  have h15 := stage15_keeps inp s hb
  have hbr := stageBrand_keeps inp (stage15 inp s) (by rw [h15.1]; exact hb)
    (by rw [h15.2.1]; exact hm)
  have hwm : stageWmi inp (stageBrand inp (stage15 inp s)) = stageBrand inp (stage15 inp s) :=
    stageWmi_keeps inp _ (by rw [hbr.2.1, h15.2.1]; exact hm)
  refine ⟨h15, stageBrand_keeps inp s hb hm, stageWmi_keeps inp s hm, stageFinal_id inp s,
    ?_, ?_, ?_⟩
  · rw [stageFinal_id, hwm, hbr.1, h15.1]
  · rw [stageFinal_id, hwm, hbr.2.1, h15.2.1]
  · intro hbus
    rw [stageFinal_id, hwm, hbr.2.2, h15.2.2 hbus]

/-- A running state with all three frequency fields nonzero, as a later
stage could have produced it. -/
def sC7w : FreqState := ⟨3000, 4000, 100, true⟩

/-- Witness for C7 amended: from a state with base, max and bus all
nonzero, every later stage of the chain changes nothing. -/
theorem c7_amended_witness :
    ((stage15 inpC7 sC7w).base_mhz = sC7w.base_mhz ∧
      (stage15 inpC7 sC7w).max_mhz = sC7w.max_mhz ∧
      (sC7w.bus_mhz ≠ 0 → (stage15 inpC7 sC7w).bus_mhz = sC7w.bus_mhz)) ∧
    ((stageBrand inpC7 sC7w).base_mhz = sC7w.base_mhz ∧
      (stageBrand inpC7 sC7w).max_mhz = sC7w.max_mhz ∧
      (stageBrand inpC7 sC7w).bus_mhz = sC7w.bus_mhz) ∧
    stageWmi inpC7 sC7w = sC7w ∧
    stageFinal inpC7 sC7w = sC7w ∧
    ((stageFinal inpC7 (stageWmi inpC7 (stageBrand inpC7 (stage15 inpC7 sC7w)))).base_mhz =
        sC7w.base_mhz ∧
     (stageFinal inpC7 (stageWmi inpC7 (stageBrand inpC7 (stage15 inpC7 sC7w)))).max_mhz =
        sC7w.max_mhz ∧
     (sC7w.bus_mhz ≠ 0 →
       (stageFinal inpC7 (stageWmi inpC7 (stageBrand inpC7 (stage15 inpC7 sC7w)))).bus_mhz =
          sC7w.bus_mhz)) :=
  c7_amended inpC7 sC7w (by decide) (by decide)

/-- Environment refuting C3: processor 0 is outside the process affinity
mask (only masks 4 and 12 are settable — a process restricted to logical
processors 2 and 3), three logical processors are enumerated, and the
calling thread starts with affinity mask 12. -/
def envC3 : TopoEnv :=
  { maxLeafRaw := 0xB, cpuid := fun _ _ _ => ⟨0, 0, 0, 0⟩, bufferSize := 1,
    mallocOk := true, glpiOk := true, totalLPs := 3,
    canSet := fun m => m == 4 || m == 12 }

/-- Counterexample to C3 as stated: when the initial save-pin to mask 1
fails (processor 0 not in the process affinity mask), `original_affinity`
is 0, the per-processor loop still re-pins the thread, and the restore is
skipped — the thread ends pinned to mask 4 instead of its original mask
12, even though restoring mask 12 would have succeeded. -/
theorem c3_counterexample :
    (detect_apic_topology envC3 12).1 = 4 ∧ (4 : Nat) ≠ 12 ∧
    envC3.canSet 12 = true := by decide

/-- C3 amended: the thread's affinity equals its pre-enumeration value on
every control-flow exit path (early returns for an unsupported leaf, a
zero-sized buffer, allocation failure or a failed core-relationship query,
per-processor skips, exhaustion and the capacity cut-off) provided the
initial save-pin to processor 0 succeeds and the original mask is
re-settable; when that save-pin fails, no restore is attempted and the
thread may remain pinned to the last successfully pinned processor. -/
theorem c3_amended (env : TopoEnv) (initAff : Nat) (h0 : initAff ≠ 0)
    (h1 : env.canSet 1 = true) (h2 : env.canSet initAff = true) :
    (detect_apic_topology env initAff).1 = initAff := by
  unfold detect_apic_topology
  split
  · rfl
  split
  · rfl
  split
  · rfl
  split
  · rfl
  simp [setAff, h1, h2, h0]

/-- Environment for the C3 witness: every mask settable, two processors. -/
def envC3w : TopoEnv :=
  { maxLeafRaw := 0xB, cpuid := fun _ _ _ => ⟨0, 0, 0, 0⟩, bufferSize := 1,
    mallocOk := true, glpiOk := true, totalLPs := 2, canSet := fun _ => true }

/-- Witness for C3 amended: a full enumeration restores the original
affinity mask 5. -/
theorem c3_amended_witness : (detect_apic_topology envC3w 5).1 = 5 :=
  c3_amended envC3w 5 (by decide) rfl rfl

/-- Two subleaves both reporting a level-1 data cache: the first with the
minimal geometry (1 byte, so `size_kb` stores 0), the second with 4 ways. -/
def subC8 : Nat → Regs :=
  fun i =>
    if i = 0 then ⟨0x21, 0, 0, 0⟩
    else if i = 1 then ⟨0x21, 12582912, 0, 0⟩
    else ⟨0, 0, 0, 0⟩

/-- The same oracle truncated after the first subleaf. -/
def subC8one : Nat → Regs :=
  fun i => if i = 0 then ⟨0x21, 0, 0, 0⟩ else ⟨0, 0, 0, 0⟩

/-- Counterexample to C8 as stated: the first subleaf populates the L1D
record (associativity 1) but stores `size_kb = 0` because the byte size is
below 1024; the duplicate second subleaf then passes the `size_kb == 0`
guard again and overwrites the record (associativity becomes 4), so the
level is populated twice and the already-populated record does not stay
unchanged. -/
theorem c8_counterexample :
    (detect_intel_caches subC8one).l1d.assoc = 1 ∧
    (detect_intel_caches subC8).l1d.assoc = 4 ∧
    (stepCache (subC8 1) (stepCache (subC8 0) caches4Zero)).l1d ≠
      (stepCache (subC8 0) caches4Zero).l1d := by decide

/-- One iteration of the subleaf loop never touches a level whose stored
`size_kb` is nonzero. -/
theorem stepCache_preserves (r : Regs) (st : Caches4) :
    (st.l1d.size_kb ≠ 0 → (stepCache r st).l1d = st.l1d) ∧
    (st.l1i.size_kb ≠ 0 → (stepCache r st).l1i = st.l1i) ∧
    (st.l2.size_kb ≠ 0 → (stepCache r st).l2 = st.l2) ∧
    (st.l3.size_kb ≠ 0 → (stepCache r st).l3 = st.l3) := by
  refine ⟨?_, ?_, ?_, ?_⟩ <;> intro h <;> simp only [stepCache] <;> repeat' split
  all_goals rfl

/-- C8 amended: a level is written only while its `size_kb` is still the
zero sentinel, so once a populated level has a nonzero `size_kb`, the rest
of the subleaf loop leaves its record unchanged; only a population that
stores `size_kb = 0` (byte size below 1024, or a wrapped overflow) leaves
the level open to a later duplicate subleaf, as the counterexample shows. -/
theorem c8_amended (sub : Nat → Regs) (fuel i : Nat) (st : Caches4) :
    (st.l1d.size_kb ≠ 0 → (detectLoop sub fuel i st).l1d = st.l1d) ∧
    (st.l1i.size_kb ≠ 0 → (detectLoop sub fuel i st).l1i = st.l1i) ∧
    (st.l2.size_kb ≠ 0 → (detectLoop sub fuel i st).l2 = st.l2) ∧
    (st.l3.size_kb ≠ 0 → (detectLoop sub fuel i st).l3 = st.l3) := by
  induction fuel generalizing i st with
  | zero => simp [detectLoop]
  | succ n ih =>
    simp only [detectLoop]
    split
    · exact ⟨fun _ => rfl, fun _ => rfl, fun _ => rfl, fun _ => rfl⟩
    · have hstep := stepCache_preserves (sub i) st
      refine ⟨?_, ?_, ?_, ?_⟩ <;> intro h
      · have e := hstep.1 h
        rw [(ih (i + 1) (stepCache (sub i) st)).1 (by rw [e]; exact h), e]
      · have e := hstep.2.1 h
        rw [(ih (i + 1) (stepCache (sub i) st)).2.1 (by rw [e]; exact h), e]
      · have e := hstep.2.2.1 h
        rw [(ih (i + 1) (stepCache (sub i) st)).2.2.1 (by rw [e]; exact h), e]
      · have e := hstep.2.2.2 h
        rw [(ih (i + 1) (stepCache (sub i) st)).2.2.2 (by rw [e]; exact h), e]

/-- A state whose L1D record is already populated with a nonzero size. -/
def stC8w : Caches4 := ⟨⟨32, 8, 64, 1, 64, 2, 1⟩, cacheZero, cacheZero, cacheZero⟩

/-- Witness for C8 amended: a populated L1D record with nonzero size
survives the whole subleaf loop unchanged. -/
theorem c8_amended_witness : (detectLoop subC8 32 0 stC8w).l1d = stC8w.l1d :=
  (c8_amended subC8 32 0 stC8w).1 (by decide)

/-- Environment for C9: hybrid leaf 0x1A supported, reporting EAX with high
byte 0x40 (the performance-core designator) on every processor; one
logical processor enumerated. -/
def envC9 : TopoEnv :=
  { maxLeafRaw := 0x1A,
    cpuid := fun _ leaf _ => if leaf = 0x1A then ⟨0x40000000, 0, 0, 0⟩ else ⟨0, 0, 0, 0⟩,
    bufferSize := 1, mallocOk := true, glpiOk := true, totalLPs := 1,
    canSet := fun _ => true }

/-- The same environment with the hybrid leaf unsupported. -/
def envC9b : TopoEnv :=
  { maxLeafRaw := 0xB,
    cpuid := fun _ leaf _ => if leaf = 0x1A then ⟨0x40000000, 0, 0, 0⟩ else ⟨0, 0, 0, 0⟩,
    bufferSize := 1, mallocOk := true, glpiOk := true, totalLPs := 1,
    canSet := fun _ => true }

/-- C9, evaluated at the failing input: with the hybrid leaf supported and
reporting the performance designator 0x40 in the high byte of EAX, the
stored `core_type` is the raw byte 64 — not a value of the documented
enumeration 0 = reserved / 1 = performance / 2 = efficiency the struct
comment and the claim require; with the leaf unsupported the stored value
is 0 as claimed. -/
theorem c9_core_type_raw :
    ((detect_apic_topology envC9 1).2.map fun t => t.core_type) = [64] ∧
    ¬ ((64 : Int) = 0 ∨ (64 : Int) = 1 ∨ (64 : Int) = 2) ∧
    ((detect_apic_topology envC9b 1).2.map fun t => t.core_type) = [0] := by decide

end CpuidHelper
